import Mathlib

/-!
Shallow embedding of the FastHtml component library (src/components.py).

Each Python class becomes a Lean structure holding its constructor fields, and each
render method becomes a Lean function producing the exact HTML string the Python
f-string produces, including all whitespace of the triple-quoted template literals.
Single-quote characters inside HTML strings are written with a hexadecimal escape
sequence. Python string truthiness (if self.custom_classes:) is translated as a
test against the empty string, which is exact for string-valued fields.

The dynamic failure paths (NotImplementedError in BaseComponent.render, the
TypeError raised when the class object BaseComponent itself is used as a component
inside Page.render) are modelled with Except, mirroring where Python raises.
-/

namespace Components

/-- Python str.strip in the expression f-string.strip() at line 40 of
src/components.py: remove leading and trailing whitespace characters. The library
function String.trim has the same behaviour but is defined by well-founded recursion
over byte positions and does not reduce in the kernel, so the embedding uses this
structurally recursive definition over the character list instead. -/
def pyStrip (s : String) : String :=
  ⟨((s.data.dropWhile Char.isWhitespace).reverse.dropWhile Char.isWhitespace).reverse⟩

/-- BaseComponent.get_classes (src/components.py lines 37 to 40): a non-empty
custom_classes fully overrides; otherwise default_classes and additional_classes are
joined with one space and the result is stripped. -/
def get_classes (custom_classes additional_classes default_classes : String) : String :=
  if custom_classes ≠ "" then custom_classes
  else pyStrip (default_classes ++ " " ++ additional_classes)

/-- BaseComponent.render (lines 34 to 35) unconditionally raises
NotImplementedError with this message. -/
def BaseComponent.render : Except String String :=
  Except.error "NotImplementedError: Subclasses must implement the render method"

/-- State of a fully constructed BaseComponent instance. -/
structure BaseComponentState where
  additional_classes : String
  custom_classes : String
  html : String

/-- BaseComponent constructor (lines 29 to 32): it stores the two class strings and
then sets the html attribute to the result of self.render(), so the exception from
the base render propagates out of the constructor. -/
def BaseComponent.init (additional_classes custom_classes : String) :
    Except String BaseComponentState :=
  match BaseComponent.render with
  | Except.error e => Except.error e
  | Except.ok h => Except.ok ⟨additional_classes, custom_classes, h⟩

/-- Heading component fields (lines 52 to 56); level is a Python int, default 1. -/
structure Heading where
  text : String
  level : Int
  additional_classes : String
  custom_classes : String

/-- Heading.default_classes (lines 62 to 63). -/
def Heading.default_classes : String := "text-2xl font-bold"

/-- Heading.render (lines 58 to 60). -/
def Heading.render (h : Heading) : String :=
  let classes := get_classes h.custom_classes h.additional_classes Heading.default_classes
  "<h" ++ toString h.level ++ " class=\x27" ++ classes ++ "\x27>" ++ h.text ++
    "</h" ++ toString h.level ++ ">"

/-- Button component fields (lines 66 to 69). -/
structure Button where
  text : String
  additional_classes : String
  custom_classes : String

/-- Button.default_classes (lines 75 to 76). -/
def Button.default_classes : String :=
  "bg-slate-500 hover:bg-slate-700 text-white font-bold py-2 px-3 rounded"

/-- Button.render (lines 71 to 73). -/
def Button.render (b : Button) : String :=
  let classes := get_classes b.custom_classes b.additional_classes Button.default_classes
  "<button class=\x27" ++ classes ++ "\x27>" ++ b.text ++ "</button>"

/-- Text component fields (lines 79 to 82). -/
structure Text where
  text : String
  additional_classes : String
  custom_classes : String

/-- Text.default_classes (lines 88 to 89). -/
def Text.default_classes : String := "text-base text-lg"

/-- Text.render (lines 84 to 86). -/
def Text.render (t : Text) : String :=
  let classes := get_classes t.custom_classes t.additional_classes Text.default_classes
  "<p class=\x27" ++ classes ++ "\x27>" ++ t.text ++ "</p>"

/-- One entry of the items list passed to NavBar: a dict with keys href and text. -/
structure NavItem where
  href : String
  text : String

/-- NavBar component fields (lines 92 to 96). -/
structure NavBar where
  title : String
  items : List NavItem
  additional_classes : String
  custom_classes : String

/-- NavBar.default_classes (lines 113 to 114). -/
def NavBar.default_classes : String := "bg-white p-4 border-b border-slate-300"

/-- The per-item f-string of the generator at lines 100 to 103. -/
def NavBar.item_html (item : NavItem) : String :=
  "<li class=\x27mr-6\x27><a class=\x27text-slate-800 hover:text-slate-500\x27 href=\x27" ++
    item.href ++ "\x27>" ++ item.text ++ "</a></li>"

/-- NavBar.render (lines 98 to 111): items_html is the separator-free join of the
per-item fragments, spliced into the triple-quoted template literal, whose exact
newlines and indentation are reproduced here. -/
def NavBar.render (nb : NavBar) : String :=
  let classes := get_classes nb.custom_classes nb.additional_classes NavBar.default_classes
  let items_html := String.join (nb.items.map NavBar.item_html)
  "\n            <nav class=\x27" ++ classes ++
    "\x27>\n                <div class=\x27flex items-center\x27>\n                    <a class=\x27text-2xl font-semibold mr-6 text-slate-800\x27 href=\x27/\x27>" ++
    nb.title ++
    "</a>\n                    <ul class=\x27flex\x27>" ++ items_html ++
    "</ul>\n                </div>\n            </nav>\n        "

/-- One entry of the options list passed to Dropdown: a dict with keys value and
label. -/
structure DropOption where
  value : String
  label : String

/-- Dropdown component fields (lines 117 to 124). -/
structure Dropdown where
  name : String
  options : List DropOption
  label : String
  additional_classes : String
  custom_classes : String

/-- Dropdown.default_classes (lines 146 to 147). -/
def Dropdown.default_classes : String :=
  "bg-white border border-slate-300 text-slate-800 px-3 py-2 rounded"

/-- The per-option f-string of the generator at lines 128 to 131. -/
def Dropdown.option_html (o : DropOption) : String :=
  "<option value=\x27" ++ o.value ++ "\x27>" ++ o.label ++ "</option>"

/-- The conditional label fragment at lines 132 to 136. -/
def Dropdown.label_html (d : Dropdown) : String :=
  if d.label ≠ "" then
    "<label class=\x27block text-lg font-semibold text-slate-800 mb-2\x27>" ++ d.label ++
      "</label>"
  else ""

/-- Dropdown.render (lines 126 to 144). -/
def Dropdown.render (d : Dropdown) : String :=
  let classes := get_classes d.custom_classes d.additional_classes Dropdown.default_classes
  let options_html := String.join (d.options.map Dropdown.option_html)
  "\n            <div class=\x27dropdown-component\x27>\n                " ++
    Dropdown.label_html d ++
    "\n                <select name=\x27" ++ d.name ++ "\x27 class=\x27" ++ classes ++
    "\x27>\n                    " ++ options_html ++
    "\n                </select>\n            </div>\n        "

/-- Slider component fields (lines 150 to 168); the numeric fields are Python ints
with defaults min_value 0, max_value 100, step 1, value 50. -/
structure Slider where
  name : String
  min_value : Int
  max_value : Int
  step : Int
  value : Int
  label : String
  additional_classes : String
  custom_classes : String

/-- Slider.default_classes (lines 187 to 188). -/
def Slider.default_classes : String := "slider bg-slate-200 appearance-none rounded h-2"

/-- The local slider_id at line 177: the f-string slider_ followed by the name. -/
def Slider.slider_id (s : Slider) : String := "slider_" ++ s.name

/-- The local value_display_id at line 178: value_display_ followed by the name. -/
def Slider.value_display_id (s : Slider) : String := "value_display_" ++ s.name

/-- The conditional label fragment at lines 172 to 176. -/
def Slider.label_html (s : Slider) : String :=
  if s.label ≠ "" then
    "<label class=\x27block text-lg font-semibold text-slate-700 mb-2\x27>" ++ s.label ++
      "</label>"
  else ""

/-- Slider.render (lines 170 to 185); numeric fields are interpolated with the
decimal rendering of Python str on ints. -/
def Slider.render (s : Slider) : String :=
  let classes := get_classes s.custom_classes s.additional_classes Slider.default_classes
  "\n            <div class=\x27slider-component\x27>\n                " ++
    Slider.label_html s ++
    "\n                <input type=\x27range\x27 id=\x27" ++ Slider.slider_id s ++
    "\x27 name=\x27" ++ s.name ++
    "\x27 min=\x27" ++ toString s.min_value ++
    "\x27 max=\x27" ++ toString s.max_value ++
    "\x27 step=\x27" ++ toString s.step ++
    "\x27 value=\x27" ++ toString s.value ++
    "\x27 class=\x27" ++ classes ++
    "\x27 oninput=\"document.getElementById(\x27" ++ Slider.value_display_id s ++
    "\x27).innerText = this.value\">\n                <span id=\x27" ++
    Slider.value_display_id s ++
    "\x27 class=\x27ml-2\x27>" ++ toString s.value ++
    "</span>\n            </div>\n        "

/-- A Python value appearing in the components list of a Page: either a fully
constructed component instance, whose dunder html method returns its cached html
string, or a class object such as BaseComponent itself. Calling the dunder html
method through a bare class object raises TypeError because the required self
argument is missing. -/
inductive PyComponent where
  | inst (html : String) : PyComponent
  | classObject : PyComponent
deriving DecidableEq

/-- The call component.__html__() at line 206, for either kind of value. -/
def dunderHtml : PyComponent → Except String String
  | PyComponent.inst h => Except.ok h
  | PyComponent.classObject =>
      Except.error "TypeError: __html__() missing 1 required positional argument: self"

/-- The join at line 206: the empty-separator join of the html of each component, in
order; the generator raises as soon as a non-instance element is reached. -/
def body_content : List PyComponent → Except String String
  | [] => Except.ok ""
  | c :: cs =>
    match dunderHtml c with
    | Except.error e => Except.error e
    | Except.ok h =>
      match body_content cs with
      | Except.error e => Except.error e
      | Except.ok rest => Except.ok (h ++ rest)

/-- Page component fields (lines 191 to 203). -/
structure Page where
  template_name : String
  title : String
  components : List PyComponent
  additional_classes : String
  custom_classes : String

/-- The default argument components=[BaseComponent] at line 196: a one-element list
whose sole element is the class object BaseComponent itself, not an instance. -/
def Page.components_default : List PyComponent := [PyComponent.classObject]

/-- Page.render (lines 205 to 208). The template store env is an external
collaborator; it is modelled as a lookup function from template names to template
render functions of the two bindings title and body. Line 206 computes body_content
first, so a failure there surfaces before the template lookup at line 207. -/
def Page.render (getTemplate : String → Option (String → String → String)) (p : Page) :
    Except String String :=
  match body_content p.components with
  | Except.error e => Except.error e
  | Except.ok body =>
    match getTemplate p.template_name with
    | none => Except.error "TemplateNotFound"
    | some t => Except.ok (t p.title body)

end Components

namespace Components

/-- Helper: folding string append from any accumulator splits off the accumulator. -/
theorem foldl_append_shift :
    ∀ (l : List String) (a : String),
      List.foldl (fun r t => r ++ t) a l = a ++ List.foldl (fun r t => r ++ t) "" l := by
  intro l
  induction l with
  | nil => intro a; exact (String.append_empty a).symm
  | cons h t ih =>
    intro a
    simp only [List.foldl]
    rw [ih (a ++ h), ih ("" ++ h), String.append_assoc]
    exact rfl

/-- Helper: String.join of a cons cell prepends the head to the join of the tail. -/
theorem join_cons (s : String) (l : List String) :
    String.join (s :: l) = s ++ String.join l := by
  show List.foldl (fun r t => r ++ t) ("" ++ s) l = s ++ List.foldl (fun r t => r ++ t) "" l
  rw [foldl_append_shift l ("" ++ s)]
  exact rfl

/-- Helper: body_content on a list of constructed instances never fails and returns
the separator-free join of their html strings. -/
theorem body_content_insts (htmls : List String) :
    body_content (htmls.map PyComponent.inst) = Except.ok (String.join htmls) := by
  induction htmls with
  | nil => rfl
  | cons h t ih => simp [body_content, dunderHtml, ih, join_cons]

/-- Claim C1: for every component, a non-empty custom_classes makes the resolved
class string equal custom_classes exactly, with default classes and
additional_classes discarded; hence the class attribute interpolated into the
rendered HTML (shown for Heading) equals custom_classes verbatim. -/
theorem custom_classes_full_override (custom_classes : String) (h : custom_classes ≠ "") :
    (∀ additional_classes default_classes,
      get_classes custom_classes additional_classes default_classes = custom_classes) ∧
    (∀ text level additional_classes,
      Heading.render ⟨text, level, additional_classes, custom_classes⟩ =
        "<h" ++ toString level ++ " class=\x27" ++ custom_classes ++ "\x27>" ++ text ++
          "</h" ++ toString level ++ ">") := by
  constructor
  · intro a d
    simp [get_classes, h]
  · intro t l a
    simp [Heading.render, get_classes, h]

theorem custom_classes_full_override_witness :
    ("shadow" : String) ≠ "" ∧
      get_classes "shadow" "mt-2" "text-2xl font-bold" = "shadow" :=
  ⟨by decide, (custom_classes_full_override "shadow" (by decide)).1 "mt-2" "text-2xl font-bold"⟩

/-- Claim C2: for every component, an empty custom_classes makes the resolved class
string the strip of default classes, a single space and additional_classes. -/
theorem empty_custom_classes_merge
    (custom_classes additional_classes default_classes : String)
    (h : custom_classes = "") :
    get_classes custom_classes additional_classes default_classes =
      pyStrip (default_classes ++ " " ++ additional_classes) := by
  subst h
  rfl

theorem empty_custom_classes_merge_witness :
    ("" : String) = "" ∧
      get_classes "" "mt-4" "text-base text-lg" =
        pyStrip ("text-base text-lg" ++ " " ++ "mt-4") :=
  ⟨rfl, empty_custom_classes_merge "" "mt-4" "text-base text-lg" rfl⟩

/-- Claim C3: for every sequence of already-rendered components, Page.render binds
as the template body the concatenation of their html strings in order, with no
separator, and applies the looked-up template to the title and that body. -/
theorem page_render_body_concat
    (getTemplate : String → Option (String → String → String))
    (tmpl : String → String → String)
    (template_name title additional_classes custom_classes : String)
    (htmls : List String)
    (h : getTemplate template_name = some tmpl) :
    Page.render getTemplate
        ⟨template_name, title, htmls.map PyComponent.inst,
          additional_classes, custom_classes⟩ =
      Except.ok (tmpl title (String.join htmls)) := by
  simp [Page.render, body_content_insts, h]

theorem page_render_body_concat_witness :
    Page.render
        (fun _ => some
          (fun t b => "<title>" ++ t ++ "</title><body>" ++ b ++ "</body>"))
        ⟨"base.html", "Home",
          ["<p class=\x27text-base text-lg\x27>hi</p>",
            "<button class=\x27x\x27>go</button>"].map PyComponent.inst,
          "", ""⟩ =
      Except.ok
        ((fun t b => "<title>" ++ t ++ "</title><body>" ++ b ++ "</body>") "Home"
          (String.join
            ["<p class=\x27text-base text-lg\x27>hi</p>",
              "<button class=\x27x\x27>go</button>"])) :=
  page_render_body_concat _ _ "base.html" "Home" "" "" _ rfl

/-- Claim C4: the default components argument is the one-element list holding the
abstract class object itself, not an instance, so rendering a Page built with the
default fails with the missing-self TypeError instead of producing an empty body. -/
theorem page_default_components_fail
    (getTemplate : String → Option (String → String → String))
    (template_name title additional_classes custom_classes : String) :
    Page.components_default = [PyComponent.classObject] ∧
    Page.render getTemplate
        ⟨template_name, title, Page.components_default,
          additional_classes, custom_classes⟩ =
      Except.error "TypeError: __html__() missing 1 required positional argument: self" :=
  ⟨rfl, rfl⟩

/-- Claim C5: constructing the base component abstraction fails at construction time
with the not-implemented condition, because the constructor invokes render and the
base render unconditionally raises NotImplementedError. -/
theorem base_component_init_fails (additional_classes custom_classes : String) :
    BaseComponent.init additional_classes custom_classes =
      Except.error "NotImplementedError: Subclasses must implement the render method" :=
  rfl

/-- Claim C6: the NavBar html is a fixed head (nav opening, title anchor, ul
opening) followed by the separator-free join of exactly one li fragment per item in
insertion order, followed by a fixed tail; each li fragment holds an anchor whose
href attribute and text equal the fields of its item. -/
theorem navbar_li_per_item (nb : NavBar) :
    NavBar.render nb =
      ("\n            <nav class=\x27" ++
          get_classes nb.custom_classes nb.additional_classes NavBar.default_classes ++
          "\x27>\n                <div class=\x27flex items-center\x27>\n                    <a class=\x27text-2xl font-semibold mr-6 text-slate-800\x27 href=\x27/\x27>" ++
          nb.title ++
          "</a>\n                    <ul class=\x27flex\x27>") ++
        String.join (nb.items.map NavBar.item_html) ++
        "</ul>\n                </div>\n            </nav>\n        " ∧
    (nb.items.map NavBar.item_html).length = nb.items.length ∧
    ∀ item : NavItem,
      NavBar.item_html item =
        "<li class=\x27mr-6\x27><a class=\x27text-slate-800 hover:text-slate-500\x27 href=\x27" ++
          item.href ++ "\x27>" ++ item.text ++ "</a></li>" := by
  refine ⟨rfl, by simp, fun item => rfl⟩

/-- Claim C7: the range input id is slider_ followed by the name, the display span
id is value_display_ followed by the name, and the visible text inside the span is
the value as given; at name vol and value 50 this yields slider_vol,
value_display_vol and the text 50. -/
theorem slider_identifiers (s : Slider) :
    Slider.slider_id s = "slider_" ++ s.name ∧
    Slider.value_display_id s = "value_display_" ++ s.name ∧
    Slider.render s =
      ("\n            <div class=\x27slider-component\x27>\n                " ++
          Slider.label_html s ++
          "\n                <input type=\x27range\x27 id=\x27" ++ Slider.slider_id s ++
          "\x27 name=\x27" ++ s.name ++
          "\x27 min=\x27" ++ toString s.min_value ++
          "\x27 max=\x27" ++ toString s.max_value ++
          "\x27 step=\x27" ++ toString s.step ++
          "\x27 value=\x27" ++ toString s.value ++
          "\x27 class=\x27" ++
          get_classes s.custom_classes s.additional_classes Slider.default_classes ++
          "\x27 oninput=\"document.getElementById(\x27" ++ Slider.value_display_id s ++
          "\x27).innerText = this.value\">\n                <span id=\x27" ++
          Slider.value_display_id s) ++
        "\x27 class=\x27ml-2\x27>" ++ toString s.value ++
        "</span>\n            </div>\n        " ∧
    Slider.slider_id ⟨"vol", 0, 100, 1, 50, "", "", ""⟩ = "slider_vol" ∧
    Slider.value_display_id ⟨"vol", 0, 100, 1, 50, "", "", ""⟩ = "value_display_vol" ∧
    toString (Slider.value ⟨"vol", 0, 100, 1, 50, "", "", ""⟩) = "50" := by
  refine ⟨rfl, rfl, rfl, by decide, by decide, by decide⟩

/-- Claim C8: an empty items list gives a NavBar whose ul holds zero li fragments,
and an empty options list gives a Dropdown whose select holds zero option fragments;
both renders succeed, mirroring that the Python constructors raise nothing on empty
sequences. -/
theorem empty_items_options_render :
    (∀ title additional_classes custom_classes : String,
      NavBar.render ⟨title, [], additional_classes, custom_classes⟩ =
        "\n            <nav class=\x27" ++
          get_classes custom_classes additional_classes NavBar.default_classes ++
          "\x27>\n                <div class=\x27flex items-center\x27>\n                    <a class=\x27text-2xl font-semibold mr-6 text-slate-800\x27 href=\x27/\x27>" ++
          title ++
          "</a>\n                    <ul class=\x27flex\x27>" ++ "" ++
          "</ul>\n                </div>\n            </nav>\n        ") ∧
    (∀ name label additional_classes custom_classes : String,
      Dropdown.render ⟨name, [], label, additional_classes, custom_classes⟩ =
        "\n            <div class=\x27dropdown-component\x27>\n                " ++
          Dropdown.label_html ⟨name, [], label, additional_classes, custom_classes⟩ ++
          "\n                <select name=\x27" ++ name ++ "\x27 class=\x27" ++
          get_classes custom_classes additional_classes Dropdown.default_classes ++
          "\x27>\n                    " ++ "" ++
          "\n                </select>\n            </div>\n        ") :=
  ⟨fun _ _ _ => rfl, fun _ _ _ _ => rfl⟩

/-- Claim C9: for every NavBar, whatever the title, items and class inputs, the
title anchor in the html targets the hardcoded string / and no constructor input
reaches that attribute. -/
theorem navbar_title_href_hardcoded (nb : NavBar) :
    NavBar.render nb =
      "\n            <nav class=\x27" ++
        get_classes nb.custom_classes nb.additional_classes NavBar.default_classes ++
        "\x27>\n                <div class=\x27flex items-center\x27>\n                    <a class=\x27text-2xl font-semibold mr-6 text-slate-800\x27 " ++
        "href=\x27/\x27>" ++ nb.title ++ "</a>" ++
        "\n                    <ul class=\x27flex\x27>" ++
        String.join (nb.items.map NavBar.item_html) ++
        "</ul>\n                </div>\n            </nav>\n        " := by
  have h2 :
      ("\x27>\n                <div class=\x27flex items-center\x27>\n                    <a class=\x27text-2xl font-semibold mr-6 text-slate-800\x27 href=\x27/\x27>" : String) =
        "\x27>\n                <div class=\x27flex items-center\x27>\n                    <a class=\x27text-2xl font-semibold mr-6 text-slate-800\x27 " ++
          "href=\x27/\x27>" := by
    decide
  have h3 :
      ("</a>\n                    <ul class=\x27flex\x27>" : String) =
        "</a>" ++ "\n                    <ul class=\x27flex\x27>" := by
    decide
  simp only [NavBar.render]
  rw [h2, h3]
  simp only [String.append_assoc]

/-- Claim C10: with empty custom_classes and empty additional_classes the resolved
class string equals the default classes of each of the six leaf components exactly,
the trailing space being removed by the strip. -/
theorem empty_inputs_default_classes_exact :
    get_classes "" "" Heading.default_classes = Heading.default_classes ∧
    get_classes "" "" Button.default_classes = Button.default_classes ∧
    get_classes "" "" Text.default_classes = Text.default_classes ∧
    get_classes "" "" NavBar.default_classes = NavBar.default_classes ∧
    get_classes "" "" Dropdown.default_classes = Dropdown.default_classes ∧
    get_classes "" "" Slider.default_classes = Slider.default_classes := by
  refine ⟨?_, ?_, ?_, ?_, ?_, ?_⟩ <;> decide

end Components
